import Mathlib

/-!
Shallow embedding of `src/superwstest.js`: a fluent WebSocket test driver.
JavaScript promises are modelled by `Except String` outcomes (a settled
promise) or `Option (Except String _)` where a promise may never settle;
the scheduling of `Promise.race` is made explicit through settle times or
race-outcome oracles.  Mutable connection objects become explicit `Conn`
values threaded through the pipeline.
-/

namespace Superwstest

/-- A JavaScript runtime value, as far as the library inspects one
(strict comparison against `false`, `String(...)` coercion). -/
inductive JsValue where
  | undefined
  | nullV
  | boolean (b : Bool)
  | number (n : Int)
  | str (s : String)
  | object
  deriving DecidableEq

/-- JavaScript `String(v)` coercion, as used by `sendText`. -/
def jsToString : JsValue → String
  | .undefined => "undefined"
  | .nullV => "null"
  | .boolean true => "true"
  | .boolean false => "false"
  | .number n => toString n
  | .str s => s
  | .object => "[object Object]"

/-- `WebSocket.CONNECTING` ready-state constant of the `ws` transport. -/
def CONNECTING : Nat := 0

/-- `WebSocket.OPEN` ready-state constant of the `ws` transport. -/
def OPEN : Nat := 1

/-- `WebSocket.CLOSING` ready-state constant of the `ws` transport. -/
def CLOSING : Nat := 2

/-- `WebSocket.CLOSED` ready-state constant of the `ws` transport. -/
def CLOSED : Nat := 3

/-- Observable state of one client connection object. -/
structure Conn where
  readyState : Nat
  deriving DecidableEq

/-- `isOpen(ws)` from the source: ready-state is CONNECTING or OPEN. -/
def isOpen (ws : Conn) : Bool :=
  ws.readyState == CONNECTING || ws.readyState == OPEN

/-- Effect of `ws.close()` on the connection: it enters the CLOSING state. -/
def wsClose (ws : Conn) : Conn :=
  { ws with readyState := CLOSING }

/-- `closeAndRethrow(ws)`: the connection-state effect of the failure
handler (close only if still open/connecting; the error is re-thrown
structurally by the pipeline step below). -/
def closeAndRethrow (ws : Conn) : Conn :=
  if isOpen ws then wsClose ws else ws

/-- A received WebSocket payload: a text frame or a binary frame. -/
inductive WsData where
  | text (s : String)
  | binary (bytes : List Nat)
  deriving DecidableEq

/-- JavaScript `typeof` of a received payload (binary frames arrive as
`Buffer` objects, whose `typeof` is `"object"`). -/
def typeofData : WsData → String
  | .text _ => "string"
  | .binary _ => "object"

/-- `normaliseBinary(v)`: `new Uint8Array(v)` truncates every element to a
byte. -/
def normaliseBinary (v : List Nat) : List Nat :=
  v.map (fun x => x % 256)

/-- `compareBinary(a, b)`: byte-for-byte equality of the two buffers. -/
def compareBinary (a b : List Nat) : Bool :=
  a == b

/-- One byte rendered as two lowercase hex digits. -/
def byteHex (n : Nat) : String :=
  let d := fun (k : Nat) =>
    String.singleton (if k < 10 then Char.ofNat (48 + k) else Char.ofNat (87 + k))
  d (n / 16 % 16) ++ d (n % 16)

/-- `stringifyBinary(v)`: `"[xx xx ...]"` spaced-hex rendering. -/
def stringifyBinary (v : List Nat) : String :=
  "[" ++ String.intercalate " " (v.map byteHex) ++ "]"

/-- `msgText(data)`: requires a text payload, else throws the
type-mismatch error embedding `typeof data`. -/
def msgText (data : WsData) : Except String String :=
  match data with
  | .text s => .ok s
  | .binary _ => .error ("Expected text message, got " ++ typeofData data)

/-- `msgBinary(data)`: requires a binary payload, else throws; the payload
is normalised to bytes. -/
def msgBinary (data : WsData) : Except String (List Nat) :=
  match data with
  | .text _ => .error "Expected binary message, got text"
  | .binary b => .ok (normaliseBinary b)

/-- Environment in which one send executes: what the transport's send
callback reports (`none` = success, `some m` = an error with message `m`),
and the close code/reason that `ws.closed` would yield. -/
structure SendEnv where
  callbackErr : Option String
  closedCode : Nat
  closedReason : String

/-- Whether `needle` occurs at the head of `hay`. -/
def charsStartWith : List Char → List Char → Bool
  | _, [] => true
  | [], _ :: _ => false
  | c :: cs, d :: ds => c == d && charsStartWith cs ds

/-- Whether `needle` occurs anywhere in `hay`. -/
def charsContain (hay needle : List Char) : Bool :=
  match hay with
  | [] => needle.isEmpty
  | _ :: rest => charsStartWith hay needle || charsContain rest needle

/-- JavaScript `str.includes(sub)`. -/
def jsIncludes (str sub : String) : Bool :=
  charsContain str.data sub.data

/-- `sendWithError(ws, msg, options)`: wraps `ws.send`'s callback in a
promise; the `.catch` handler translates a "WebSocket is not open" error
into a close-code/reason error, and otherwise returns `undefined`
(resolving the promise). -/
def sendWithError (env : SendEnv) : Except String Unit :=
  match env.callbackErr with
  | none => .ok ()
  | some m =>
      if m != "" && jsIncludes m "WebSocket is not open" then
        .error ("Cannot send message; connection closed with " ++
          toString env.closedCode ++ " \"" ++ env.closedReason ++ "\"")
      else
        .ok ()

/-- `wsMethods.sendText`: the frame actually handed to the transport and
the send outcome.  The payload is coerced with `String(msg)` first. -/
def sendText (env : SendEnv) (msg : JsValue) : WsData × Except String Unit :=
  (WsData.text (jsToString msg), sendWithError env)

/-- `request.closeAll()`: filters the registry for connections still
open/connecting, clears the registry, closes each filtered connection,
and returns the count.  Result: (returned count, registry afterwards,
connection states after their `close()` calls). -/
def closeAll (registry : List Conn) : Nat × List Conn × List Conn :=
  let remaining := registry.filter isOpen
  (remaining.length, [], remaining.map wsClose)

/-- Outcome of `Promise.race([fn(ws, ...args), ws.firstError])` for one
pipeline step: either the operation settles first (with a value or by
throwing), or the connection's `firstError` promise rejects first while
the operation is still suspended. -/
inductive RaceOutcome (α : Type) where
  | opDone (v : α)
  | opFail (e : String)
  | errFirst (e : String)

/-- Re-tag the value an operation resolved with (the pipeline must be
insensitive to this). -/
def RaceOutcome.mapVal (f : α → β) : RaceOutcome α → RaceOutcome β
  | .opDone v => .opDone (f v)
  | .opFail e => .opFail e
  | .errFirst e => .errFirst e

/-- One fluent step: given the connection it receives from the chain,
the state the connection object is left in and the race's outcome in the
schedule under consideration. -/
abbrev Step (α : Type) := Conn → Conn × RaceOutcome α

/-- Re-tag the values of a step's operation. -/
def Step.mapVal (f : α → β) (s : Step α) : Step β :=
  fun ws => ((s ws).1, (s ws).2.mapVal f)

/-- State of the growable promise chain: the chain promise's settled
value, the current state of the connection object, and the indices of
the steps whose operations actually ran, in execution order. -/
structure ChainState where
  result : Except String Conn
  conn : Conn
  trace : List Nat

/-- `thenDo(fn)(...args)`: rebind the chain to
`chain.then((ws) => Promise.race([fn(ws, ...), ws.firstError])
  .catch(closeAndRethrow(ws)).then(() => ws))`.
A rejected chain skips the step entirely; a failing race closes the
connection (only if still open/connecting) and rethrows; a successful
race resolves the chain to the connection object itself. -/
def thenDoStep (i : Nat) (s : Step α) (st : ChainState) : ChainState :=
  match st.result with
  | .error _ => st
  | .ok ws =>
      let (ws2, out) := s ws
      match out with
      | .opDone _ => { result := .ok ws2, conn := ws2, trace := st.trace ++ [i] }
      | .opFail e =>
          { result := .error e, conn := closeAndRethrow ws2, trace := st.trace ++ [i] }
      | .errFirst e =>
          { result := .error e, conn := closeAndRethrow ws2, trace := st.trace ++ [i] }

/-- Run the remaining steps of the chain, numbering them from `i`. -/
def runChainAux (st : ChainState) (i : Nat) : List (Step α) → ChainState
  | [] => st
  | s :: rest => runChainAux (thenDoStep i s st) (i + 1) rest

/-- Run a whole pipeline from a freshly opened connection `ws0`. -/
def runChain (ws0 : Conn) (steps : List (Step α)) : ChainState :=
  runChainAux { result := .ok ws0, conn := ws0, trace := [] } 0 steps

/-- Build the pipeline step corresponding to an operation that settled
with outcome `r` before any `firstError` (the connection object itself
is not mutated by the operation). -/
def opStep (r : Except String Unit) : Step Unit :=
  fun ws => (ws, match r with | .ok _ => .opDone () | .error e => .opFail e)

/-- The `check` argument of `expectMessage`, after conversion type `α`:
JavaScript `undefined` (no expectation), a matcher function (with the
optional `expectedMessage` property set on it), or a literal value to
deep-compare. -/
inductive CheckArg (α : Type) where
  | undefinedArg
  | fn (f : α → JsValue) (expectedMessage : Option String)
  | lit (v : α)

/-- `stringify(check)` as used inside failure messages: a function shows
its `expectedMessage` or `"matching function"`; a literal shows via the
payload-type's rendering; `JSON.stringify(undefined)` interpolates as
`"undefined"`. -/
def stringifyCheck (disp : α → String) : CheckArg α → String
  | .undefinedArg => "undefined"
  | .fn _ em => em.getD "matching function"
  | .lit v => disp v

/-- Timeline against which one `expectMessage` call races: when (if ever)
`ws.messages.pop()` would yield the next message, that message, and when
(if ever) `ws.closed` settles, with its close code/reason. -/
structure MsgEnv where
  msgTime : Option Nat
  msgData : WsData
  closeTime : Option Nat
  closeCode : Nat
  closeReason : String

/-- Settle time of the timeout promise: armed only when the `timeout`
option is given and greater than zero. -/
def timerTime (timeout : Option Int) : Option Nat :=
  match timeout with
  | some t => if t > 0 then some t.toNat else none
  | none => none

/-- Whether the promise settling at `a` wins `Promise.race` against the
one settling at `b`, given that `a` appears earlier in the race array
(ties go to the earlier entry). -/
def beats (a b : Option Nat) : Bool :=
  match a, b with
  | none, _ => false
  | some _, none => true
  | some x, some y => x ≤ y

/-- Which of the three raced promises of `expectMessage` settles first,
if any: the next message, the close event, or the timeout timer. -/
inductive RaceWinner where
  | message
  | closedWin
  | timer
  deriving DecidableEq

/-- Resolve the three-way race of `expectMessage`; `none` means none of
the three ever settles (the step suspends indefinitely). -/
def raceThree (msgT closeT timerT : Option Nat) : Option RaceWinner :=
  if beats msgT closeT && beats msgT timerT then some .message
  else if beats closeT timerT then some .closedWin
  else if timerT.isSome then some .timer
  else none

/-- Display the raw `timeout` option inside the timer failure message. -/
def timeoutDisp (timeout : Option Int) : String :=
  match timeout with
  | some t => toString t
  | none => "undefined"

/-- `wsMethods.expectMessage(ws, conversion, check, {timeout})`: race the
next message against the close event and the (optionally armed) timer,
convert the winning payload, then apply the `check` argument.  `none`
means the step never settles. -/
def expectMessage [DecidableEq α] (disp : α → String)
    (conversion : WsData → Except String α) (check : CheckArg α)
    (timeout : Option Int) (env : MsgEnv) : Option (Except String Unit) :=
  match raceThree env.msgTime env.closeTime (timerTime timeout) with
  | none => none
  | some w =>
      let raced : Except String WsData :=
        match w with
        | .message => .ok env.msgData
        | .closedWin =>
            .error ("Expected message " ++ stringifyCheck disp check ++
              ", but connection closed: " ++ toString env.closeCode ++
              " \"" ++ env.closeReason ++ "\"")
        | .timer =>
            .error ("Excepted message within " ++ timeoutDisp timeout ++
              "ms, but nothing arrived")
      some (match raced.bind conversion with
        | .error e => .error e
        | .ok received =>
            match check with
            | .undefinedArg => .ok ()
            | .fn f em =>
                if f received = JsValue.boolean false then
                  .error ("Expected message " ++ stringifyCheck disp (CheckArg.fn f em) ++
                    ", got " ++ disp received)
                else .ok ()
            | .lit v =>
                if received = v then .ok ()
                else
                  .error ("Expected message " ++ disp v ++ ", got " ++ disp received))

/-- `JSON.stringify` of a string value, as `stringify` renders a text
payload (escaping elided). -/
def dispString (s : String) : String :=
  "\"" ++ s ++ "\""

/-- The `expected` argument of `expectText` before normalisation: absent,
a matcher function, a regular expression (modelled by its `test` method
and its display form), or a literal string. -/
inductive TextExpected where
  | undefinedArg
  | fn (f : String → JsValue) (expectedMessage : Option String)
  | regex (test : String → Bool) (display : String)
  | lit (s : String)

/-- `wsMethods.expectText(ws, expected, options)`: a RegExp argument is
wrapped into a matcher function tagged `matching <regexp>`; everything
else is passed to `expectMessage` unchanged, with the `msgText`
conversion. -/
def expectText (expected : TextExpected) (timeout : Option Int)
    (env : MsgEnv) : Option (Except String Unit) :=
  let check : CheckArg String :=
    match expected with
    | .undefinedArg => .undefinedArg
    | .fn f em => .fn f em
    | .regex test display =>
        .fn (fun v => JsValue.boolean (test v)) (some ("matching " ++ display))
    | .lit s => .lit s
  expectMessage dispString msgText check timeout env

/-- The `expected` argument of `expectBinary`: absent, a matcher
function, or a (truthy) byte-array literal. -/
inductive BinaryExpected where
  | undefinedArg
  | fn (f : List Nat → JsValue) (expectedMessage : Option String)
  | lit (bytes : List Nat)

/-- `wsMethods.expectBinary(ws, expected, options)`: a function argument
is the matcher; a truthy literal is normalised and wrapped into a
byte-comparison matcher; absent means type-only check.  Conversion is
`msgBinary`. -/
def expectBinary (expected : BinaryExpected) (timeout : Option Int)
    (env : MsgEnv) : Option (Except String Unit) :=
  let check : CheckArg (List Nat) :=
    match expected with
    | .undefinedArg => .undefinedArg
    | .fn f em => .fn f em
    | .lit bytes =>
        let norm := normaliseBinary bytes
        .fn (fun v => JsValue.boolean (compareBinary v norm)) (some (stringifyBinary norm))
  expectMessage stringifyBinary msgBinary check timeout env

/-- The `expectedCode` argument of `expectConnectionError`: the `null`
default, a number, or a literal message string. -/
inductive ExpectedCode where
  | nullArg
  | num (n : Nat)
  | str (s : String)

/-- JavaScript truthiness of the `expectedCode` argument (`0`, `""` and
`null` are falsy). -/
def isTruthyCode : ExpectedCode → Bool
  | .nullArg => false
  | .num n => n != 0
  | .str s => s != ""

/-- `checkConnectionError(error, expectedCode)`: a falsy expectation
passes unconditionally; a numeric expectation is translated to the
canonical `Unexpected server response: N` wording; a mismatch throws the
expected-versus-actual message. -/
def checkConnectionError (error : String) (expectedCode : ExpectedCode) :
    Except String Unit :=
  if !isTruthyCode expectedCode then .ok ()
  else
    let expected :=
      match expectedCode with
      | .num n => "Unexpected server response: " ++ toString n
      | .str s => s
      | .nullArg => ""
    if error != expected then
      .error ("Expected connection failure with message \"" ++ expected ++
        "\", got \"" ++ error ++ "\"")
    else .ok ()

/-- `reportConnectionShouldFail(ws)`: close the unwanted connection, then
throw. -/
def reportConnectionShouldFail (ws : Conn) : Conn × Except String Unit :=
  (wsClose ws, .error "Expected connection failure, but succeeded")

/-- `chain.expectConnectionError(expectedCode)`: a two-handler `then` on
the handshake promise.  Returns the state of the connection object when
one exists (the handshake succeeded) and the step's outcome. -/
def expectConnectionError (handshake : Except String Conn)
    (expectedCode : ExpectedCode) : Option Conn × Except String Unit :=
  match handshake with
  | .ok ws =>
      let (ws2, r) := reportConnectionShouldFail ws
      (some ws2, r)
  | .error e => (none, checkConnectionError e expectedCode)

/-- A connection in the OPEN ready-state (used as a concrete input). -/
def connOpen : Conn := { readyState := OPEN }

/-- A connection already in the CLOSED ready-state. -/
def connClosed : Conn := { readyState := CLOSED }

/-- Two concrete pipeline steps whose operations both succeed. -/
def demoSteps : List (Step Nat) :=
  [fun ws => (ws, .opDone 1), fun ws => (wsClose ws, .opDone 2)]

/-- A concrete step whose operation succeeds and leaves the connection
untouched. -/
def okStep : Step Nat := fun ws => (ws, .opDone 7)

/-- A concrete step during which the firstError signal fires. -/
def errStep : Step Nat := fun ws => (ws, .errFirst "protocol error")

/-- A concrete step whose own operation throws. -/
def failStep : Step Nat := fun ws => (ws, .opFail "boom")

/-- A concrete timeline on which a text message arrives immediately. -/
def demoMsgEnv : MsgEnv := ⟨some 0, .text "hello", none, 1000, ""⟩

/-- A concrete timeline on which a binary message arrives immediately. -/
def demoBinEnv : MsgEnv := ⟨some 0, .binary [1, 2], none, 1000, ""⟩

/-- A concrete timeline on which nothing ever arrives and the connection
never closes. -/
def quietEnv : MsgEnv := ⟨none, .text "x", none, 1000, ""⟩

/-! ### Lemmas about the pipeline fold -/

lemma thenDoStep_error {α : Type} (i : Nat) (s : Step α) (st : ChainState) (e : String)
    (h : st.result = .error e) : thenDoStep i s st = st := by
  unfold thenDoStep
  rw [h]

lemma runChainAux_error {α : Type} :
    ∀ (l : List (Step α)) (st : ChainState) (i : Nat) (e : String),
      st.result = .error e → runChainAux st i l = st
  | [], _, _, _, _ => rfl
  | s :: rest, st, i, e, h => by
      simp only [runChainAux, thenDoStep_error i s st e h]
      exact runChainAux_error rest st (i + 1) e h

lemma runChainAux_append {α : Type} (l1 l2 : List (Step α)) :
    ∀ (st : ChainState) (i : Nat),
      runChainAux st i (l1 ++ l2) =
        runChainAux (runChainAux st i l1) (i + l1.length) l2 := by
  induction l1 with
  | nil => intro st i; simp [runChainAux]
  | cons s rest ih =>
      intro st i
      have harith : i + (rest.length + 1) = i + 1 + rest.length := by omega
      simp only [List.cons_append, runChainAux, List.append_eq, ih, List.length_cons, harith]

lemma runChainAux_ok_eq_conn {α : Type} :
    ∀ (l : List (Step α)) (st : ChainState) (i : Nat),
      (∀ ws, st.result = .ok ws → ws = st.conn) →
      ∀ ws, (runChainAux st i l).result = .ok ws → ws = (runChainAux st i l).conn := by
  intro l
  induction l with
  | nil =>
      intro st i h
      simpa [runChainAux] using h
  | cons s rest ih =>
      intro st i h
      simp only [runChainAux]
      apply ih
      cases hres : st.result with
      | error e =>
          intro w hw
          rw [thenDoStep_error i s st e hres] at hw ⊢
          exact h w hw
      | ok ws =>
          rcases hsw : s ws with ⟨ws2, out⟩
          cases out with
          | opDone v =>
              intro w hw
              simp only [thenDoStep, hres, hsw] at hw ⊢
              injection hw with hw
              exact hw.symm
          | opFail e =>
              intro w hw
              simp only [thenDoStep, hres, hsw] at hw
              simp at hw
          | errFirst e =>
              intro w hw
              simp only [thenDoStep, hres, hsw] at hw
              simp at hw

lemma range_map_add (k i : Nat) :
    (List.range (k + 1)).map (fun x => x + i) =
      i :: (List.range k).map (fun x => x + (i + 1)) := by
  rw [List.range_succ_eq_map, List.map_cons, List.map_map]
  have hf : ((fun x => x + i) ∘ Nat.succ) = fun x => x + (i + 1) := by
    funext x
    simp only [Function.comp_apply]
    omega
  rw [hf, Nat.zero_add]

lemma runChainAux_trace {α : Type} :
    ∀ (l : List (Step α)) (st : ChainState) (i : Nat),
      ∃ k, k ≤ l.length ∧
        (runChainAux st i l).trace = st.trace ++ (List.range k).map (fun x => x + i) := by
  intro l
  induction l with
  | nil => intro st i; exact ⟨0, by simp, by simp [runChainAux]⟩
  | cons s rest ih =>
      intro st i
      cases hres : st.result with
      | error e =>
          refine ⟨0, by simp, ?_⟩
          rw [runChainAux_error (s :: rest) st i e hres]
          simp
      | ok ws =>
          rcases hsw : s ws with ⟨ws2, out⟩
          cases out with
          | opDone v =>
              obtain ⟨k, hk, htr⟩ :=
                ih { result := .ok ws2, conn := ws2, trace := st.trace ++ [i] } (i + 1)
              refine ⟨k + 1, by simpa using Nat.succ_le_succ hk, ?_⟩
              have hstep : runChainAux st i (s :: rest) =
                  runChainAux { result := .ok ws2, conn := ws2, trace := st.trace ++ [i] }
                    (i + 1) rest := by
                simp [runChainAux, thenDoStep, hres, hsw]
              rw [hstep, htr, range_map_add]
              simp
          | opFail e =>
              refine ⟨1, by simp, ?_⟩
              have hstep : runChainAux st i (s :: rest) =
                  runChainAux
                    { result := .error e, conn := closeAndRethrow ws2,
                      trace := st.trace ++ [i] } (i + 1) rest := by
                simp [runChainAux, thenDoStep, hres, hsw]
              rw [hstep, runChainAux_error rest _ (i + 1) e rfl]
              simp [List.range_succ]
          | errFirst e =>
              refine ⟨1, by simp, ?_⟩
              have hstep : runChainAux st i (s :: rest) =
                  runChainAux
                    { result := .error e, conn := closeAndRethrow ws2,
                      trace := st.trace ++ [i] } (i + 1) rest := by
                simp [runChainAux, thenDoStep, hres, hsw]
              rw [hstep, runChainAux_error rest _ (i + 1) e rfl]
              simp [List.range_succ]

lemma thenDoStep_mapVal {α β : Type} (i : Nat) (f : α → β) (s : Step α) (st : ChainState) :
    thenDoStep i (Step.mapVal f s) st = thenDoStep i s st := by
  unfold thenDoStep Step.mapVal
  cases hres : st.result with
  | error e => rfl
  | ok ws =>
      rcases hsw : s ws with ⟨ws2, out⟩
      cases out <;> simp [hsw, RaceOutcome.mapVal]

lemma runChainAux_mapVal {α β : Type} (f : α → β) :
    ∀ (l : List (Step α)) (st : ChainState) (i : Nat),
      runChainAux st i (l.map (Step.mapVal f)) = runChainAux st i l := by
  intro l
  induction l with
  | nil => intro st i; rfl
  | cons s rest ih =>
      intro st i
      simp only [List.map_cons, runChainAux, thenDoStep_mapVal, ih]

lemma runChain_fail_step {α : Type} (pre post : List (Step α)) (s : Step α)
    (ws0 wsMid ws2 : Conn) (e : String)
    (hpre : (runChain ws0 pre).result = .ok wsMid)
    (hrace : s wsMid = (ws2, RaceOutcome.opFail e) ∨
      s wsMid = (ws2, RaceOutcome.errFirst e)) :
    runChain ws0 (pre ++ s :: post) =
      { result := .error e, conn := closeAndRethrow ws2,
        trace := (runChain ws0 pre).trace ++ [pre.length] } := by
  unfold runChain at hpre ⊢
  rw [runChainAux_append]
  have hstep : thenDoStep (0 + pre.length) s
      (runChainAux { result := Except.ok ws0, conn := ws0, trace := [] } 0 pre) =
      { result := .error e, conn := closeAndRethrow ws2,
        trace := (runChainAux { result := Except.ok ws0, conn := ws0, trace := [] }
          0 pre).trace ++ [0 + pre.length] } := by
    rcases hrace with h | h <;> simp [thenDoStep, hpre, h]
  simp only [runChainAux, hstep]
  rw [runChainAux_error post _ _ e rfl]
  simp

/-! ### Claim theorems -/

/-- C1 (code bug): the catch handler of the send primitive rethrows only
errors whose message mentions "WebSocket is not open"; every other
callback-reported send error makes the handler return without throwing,
so the send future resolves and the failure is silently swallowed,
contradicting the propagation policy.  First conjunct: a generic
callback-reported error is swallowed; second conjunct: the not-open
translation path does reject, showing the swallow is specific. -/
theorem sendWithError_swallows_generic_error :
    sendWithError ⟨some "ECONNRESET", 1006, ""⟩ = .ok () ∧
    sendWithError ⟨some "WebSocket is not open: readyState 3 (CLOSED)", 1000, "bye"⟩ =
      .error "Cannot send message; connection closed with 1000 \"bye\"" := by
  exact ⟨rfl, rfl⟩

/-- C2: pipeline steps execute strictly in call order (the executed-step
trace is an initial segment of the call indices, one step at a time), a
successful chain value is always the connection object itself (it
coincides with the connection's threaded state), and the chain is
insensitive to the steps' own return values (re-tagging every internal
return value leaves the entire run unchanged). -/
theorem pipeline_sequential_and_conn_valued {α β : Type} (steps : List (Step α))
    (ws0 : Conn) (f : α → β) :
    ((runChain ws0 steps).trace = List.range ((runChain ws0 steps).trace.length) ∧
      (runChain ws0 steps).trace.length ≤ steps.length) ∧
    (∀ ws, (runChain ws0 steps).result = .ok ws → ws = (runChain ws0 steps).conn) ∧
    runChain ws0 (steps.map (Step.mapVal f)) = runChain ws0 steps := by
  refine ⟨?_, ?_, ?_⟩
  · obtain ⟨k, hk, htr⟩ :=
      runChainAux_trace steps { result := Except.ok ws0, conn := ws0, trace := [] } 0
    have htr2 : (runChain ws0 steps).trace = List.range k := by
      unfold runChain
      rw [htr]
      simp
    rw [htr2]
    simp [hk]
  · exact runChainAux_ok_eq_conn steps _ 0 (fun ws h => by
      simp at h
      exact h.symm)
  · exact runChainAux_mapVal f steps _ 0

/-- Witness for C2 at a concrete two-step pipeline. -/
theorem pipeline_sequential_and_conn_valued_witness :
    ((runChain connOpen demoSteps).trace =
        List.range ((runChain connOpen demoSteps).trace.length) ∧
      (runChain connOpen demoSteps).trace.length ≤ demoSteps.length) ∧
    wsClose connOpen = (runChain connOpen demoSteps).conn ∧
    runChain connOpen (demoSteps.map (Step.mapVal (fun n => n + 1))) =
      runChain connOpen demoSteps :=
  ⟨(pipeline_sequential_and_conn_valued demoSteps connOpen (fun n => n + 1)).1,
   (pipeline_sequential_and_conn_valued demoSteps connOpen (fun n => n + 1)).2.1
     (wsClose connOpen) rfl,
   (pipeline_sequential_and_conn_valued demoSteps connOpen (fun n => n + 1)).2.2⟩

/-- C3: when the connection's firstError signal wins the race while a
step's operation is still suspended, that step fails with exactly that
error: the chain rejects with it, the connection is cleaned up, and the
queued steps after it never execute. -/
theorem step_fails_on_firstError {α : Type} (pre post : List (Step α)) (s : Step α)
    (ws0 wsMid ws2 : Conn) (e : String)
    (hpre : (runChain ws0 pre).result = .ok wsMid)
    (hrace : s wsMid = (ws2, RaceOutcome.errFirst e)) :
    (runChain ws0 (pre ++ s :: post)).result = .error e ∧
    (runChain ws0 (pre ++ s :: post)).trace =
      (runChain ws0 pre).trace ++ [pre.length] := by
  rw [runChain_fail_step pre post s ws0 wsMid ws2 e hpre (Or.inr hrace)]
  exact ⟨rfl, rfl⟩

/-- Witness for C3: an error signal interrupting the middle of three steps. -/
theorem step_fails_on_firstError_witness :
    (runChain connOpen ([okStep] ++ errStep :: [okStep])).result =
      .error "protocol error" ∧
    (runChain connOpen ([okStep] ++ errStep :: [okStep])).trace =
      (runChain connOpen [okStep]).trace ++ [[okStep].length] :=
  step_fails_on_firstError [okStep] [okStep] errStep connOpen connOpen connOpen
    "protocol error" rfl rfl

/-- C4: whenever a pipeline step fails (its operation throws or the error
signal wins), the connection is closed exactly when its ready-state is
still connecting or open, the same error propagates as the chain's
rejection, and the subsequently queued steps never run. -/
theorem step_failure_closes_and_short_circuits {α : Type} (pre post : List (Step α))
    (s : Step α) (ws0 wsMid ws2 : Conn) (e : String)
    (hpre : (runChain ws0 pre).result = .ok wsMid)
    (hfail : s wsMid = (ws2, RaceOutcome.opFail e) ∨
      s wsMid = (ws2, RaceOutcome.errFirst e)) :
    (runChain ws0 (pre ++ s :: post)).result = .error e ∧
    (runChain ws0 (pre ++ s :: post)).conn =
      (if isOpen ws2 then wsClose ws2 else ws2) ∧
    (runChain ws0 (pre ++ s :: post)).trace =
      (runChain ws0 pre).trace ++ [pre.length] := by
  rw [runChain_fail_step pre post s ws0 wsMid ws2 e hpre hfail]
  exact ⟨rfl, rfl, rfl⟩

/-- Witness for C4: a failing step on an open connection closes it and
drops the queued step. -/
theorem step_failure_closes_and_short_circuits_witness :
    (runChain connOpen ([okStep] ++ failStep :: [okStep])).result = .error "boom" ∧
    (runChain connOpen ([okStep] ++ failStep :: [okStep])).conn =
      (if isOpen connOpen then wsClose connOpen else connOpen) ∧
    (runChain connOpen ([okStep] ++ failStep :: [okStep])).trace =
      (runChain connOpen [okStep]).trace ++ [[okStep].length] :=
  step_failure_closes_and_short_circuits [okStep] [okStep] failStep connOpen connOpen
    connOpen "boom" rfl (Or.inl rfl)

/-- C5 counterexample: a numeric expected status of 0 is falsy, so
checkConnectionError returns successfully even though the rejection's
message differs from "Unexpected server response: 0", contradicting the
claim's "succeeds exactly when" for every numeric status. -/
theorem expectConnectionError_zero_counterexample :
    (expectConnectionError (.error "getaddrinfo ENOTFOUND") (.num 0)).2 = .ok () ∧
    "getaddrinfo ENOTFOUND" ≠ "Unexpected server response: 0" := by
  exact ⟨rfl, by decide⟩

/-- C5 (amended): expectConnectionError fails (after closing the unwanted
connection) whenever the handshake succeeds; when the handshake is
rejected and a nonzero numeric expected status N was given, it succeeds
exactly when the rejection's message equals "Unexpected server response:
N" and fails with an expected-versus-actual message otherwise; a numeric
status of 0 is falsy and is treated as if no expectation was given. -/
theorem expectConnectionError_behaviour (hs : Except String Conn) (ws : Conn)
    (N : Nat) (m : String) :
    (hs = .ok ws → expectConnectionError hs (.num N) =
      (some (wsClose ws), .error "Expected connection failure, but succeeded")) ∧
    (hs = .error m → N ≠ 0 →
      ((expectConnectionError hs (.num N)).2 = .ok () ↔
        m = "Unexpected server response: " ++ toString N) ∧
      (m ≠ "Unexpected server response: " ++ toString N →
        (expectConnectionError hs (.num N)).2 =
          .error ("Expected connection failure with message \"" ++
            ("Unexpected server response: " ++ toString N) ++ "\", got \"" ++ m ++ "\""))) ∧
    (hs = .error m → N = 0 → (expectConnectionError hs (.num N)).2 = .ok ()) := by
  refine ⟨?_, ?_, ?_⟩
  · rintro rfl
    rfl
  · rintro rfl hN
    have ht : isTruthyCode (.num N) = true := by
      simp [isTruthyCode]
      omega
    by_cases hm : m = "Unexpected server response: " ++ toString N
    · refine ⟨⟨fun _ => hm, fun _ => ?_⟩, fun hc => absurd hm hc⟩
      simp [expectConnectionError, checkConnectionError, ht, hm]
    · refine ⟨⟨fun hok => ?_, fun h => absurd h hm⟩, fun _ => ?_⟩
      · simp [expectConnectionError, checkConnectionError, ht, hm] at hok
      · simp [expectConnectionError, checkConnectionError, ht, hm]
  · rintro rfl rfl
    rfl

/-- Witness for C5: a rejection carrying the canonical 404 wording
satisfies expectConnectionError(404). -/
theorem expectConnectionError_behaviour_witness :
    (expectConnectionError (.error "Unexpected server response: 404") (.num 404)).2 =
      .ok () :=
  ((expectConnectionError_behaviour (.error "Unexpected server response: 404") connOpen
      404 "Unexpected server response: 404").2.1 rfl (by decide)).1.mpr (by decide)

/-- C6: a message-expectation step with a matcher-function check fails
exactly when the function applied to the converted payload returns the
literal value false; any other return value (undefined, any truthy or
other non-false value) makes the step pass. -/
theorem expectMessage_fn_check {α : Type} [DecidableEq α] (disp : α → String)
    (conversion : WsData → Except String α) (f : α → JsValue) (em : Option String)
    (timeout : Option Int) (env : MsgEnv) (received : α)
    (hwin : raceThree env.msgTime env.closeTime (timerTime timeout) =
      some RaceWinner.message)
    (hconv : conversion env.msgData = .ok received) :
    (expectMessage disp conversion (.fn f em) timeout env = some (.ok ()) ↔
      f received ≠ JsValue.boolean false) ∧
    ((∃ msg, expectMessage disp conversion (.fn f em) timeout env =
        some (.error msg)) ↔
      f received = JsValue.boolean false) := by
  unfold expectMessage
  rw [hwin]
  simp only [Except.bind, hconv]
  by_cases hf : f received = JsValue.boolean false
  · simp [hf]
  · simp [hf]

/-- Witness for C6: a matcher returning undefined passes the step. -/
theorem expectMessage_fn_check_witness :
    expectMessage dispString msgText
        (.fn (fun _ => JsValue.undefined) none) none demoMsgEnv = some (.ok ()) :=
  (expectMessage_fn_check dispString msgText (fun _ => JsValue.undefined) none none
      demoMsgEnv "hello" rfl rfl).1.mpr (by decide)

/-- C7: expectText with no expected value succeeds for every string
payload and fails with the type-mismatch error for every binary payload;
expectBinary with no expected value is the exact mirror. -/
theorem expectText_expectBinary_type_only (timeout : Option Int) (env : MsgEnv)
    (hwin : raceThree env.msgTime env.closeTime (timerTime timeout) =
      some RaceWinner.message) :
    (∀ s, env.msgData = .text s →
      expectText .undefinedArg timeout env = some (.ok ()) ∧
      expectBinary .undefinedArg timeout env =
        some (.error "Expected binary message, got text")) ∧
    (∀ b, env.msgData = .binary b →
      expectBinary .undefinedArg timeout env = some (.ok ()) ∧
      expectText .undefinedArg timeout env =
        some (.error "Expected text message, got object")) := by
  constructor
  · rintro s hs
    constructor
    · unfold expectText expectMessage
      rw [hwin]
      simp [hs, msgText, Except.bind]
    · unfold expectBinary expectMessage
      rw [hwin]
      simp [hs, msgBinary, Except.bind]
  · rintro b hb
    constructor
    · unfold expectBinary expectMessage
      rw [hwin]
      simp [hb, msgBinary, Except.bind]
    · unfold expectText expectMessage
      rw [hwin]
      simp [hb, msgText, typeofData, Except.bind]

/-- Witness for C7: a text payload passes expectText() and a binary
payload fails it with the type error. -/
theorem expectText_expectBinary_type_only_witness :
    expectText .undefinedArg none demoMsgEnv = some (.ok ()) ∧
    expectText .undefinedArg none demoBinEnv =
      some (.error "Expected text message, got object") :=
  ⟨((expectText_expectBinary_type_only none demoMsgEnv rfl).1 "hello" rfl).1,
   ((expectText_expectBinary_type_only none demoBinEnv rfl).2 [1, 2] rfl).2⟩

/-- C8: with a timeout option greater than zero and neither a message nor
a close event ever arriving, the step fails with the "nothing arrived"
error, and running that failing step through the pipeline closes the
(still open) connection; with the timeout option absent or not greater
than zero, no timer is armed and the step never settles. -/
theorem expectMessage_timeout_behaviour {α : Type} [DecidableEq α] (disp : α → String)
    (conversion : WsData → Except String α) (check : CheckArg α)
    (t : Int) (env : MsgEnv) (ws0 : Conn)
    (hmsg : ∀ x, env.msgTime = some x → t.toNat < x)
    (hclose : ∀ x, env.closeTime = some x → t.toNat < x)
    (ht : 0 < t) (hopen : isOpen ws0 = true) :
    expectMessage disp conversion check (some t) env =
      some (.error ("Excepted message within " ++ toString t ++
        "ms, but nothing arrived")) ∧
    (runChain ws0 [opStep (.error ("Excepted message within " ++ toString t ++
        "ms, but nothing arrived"))]).result =
      .error ("Excepted message within " ++ toString t ++ "ms, but nothing arrived") ∧
    (runChain ws0 [opStep (.error ("Excepted message within " ++ toString t ++
        "ms, but nothing arrived"))]).conn = wsClose ws0 ∧
    (∀ timeout : Option Int, timerTime timeout = none →
      env.msgTime = none → env.closeTime = none →
      expectMessage disp conversion check timeout env = none) := by
  have htt : timerTime (some t) = some t.toNat := by simp [timerTime, ht]
  have hm : beats env.msgTime (some t.toNat) = false := by
    cases hx : env.msgTime with
    | none => rfl
    | some x =>
        have hlt := hmsg x hx
        simp [beats]
        omega
  have hc : beats env.closeTime (some t.toNat) = false := by
    cases hx : env.closeTime with
    | none => rfl
    | some x =>
        have hlt := hclose x hx
        simp [beats]
        omega
  refine ⟨?_, ?_, ?_, ?_⟩
  · unfold expectMessage
    rw [htt]
    simp [raceThree, hm, hc, timeoutDisp, Except.bind]
  · simp [runChain, runChainAux, thenDoStep, opStep]
  · simp [runChain, runChainAux, thenDoStep, opStep, closeAndRethrow, hopen]
  · intro timeout htimer h1 h2
    unfold expectMessage
    simp [raceThree, beats, h1, h2, htimer]

/-- Witness for C8: a 50ms timeout with a silent server fails the step
and closes the open connection. -/
theorem expectMessage_timeout_behaviour_witness :
    expectMessage dispString msgText (.lit "x") (some 50) quietEnv =
      some (.error ("Excepted message within " ++ toString (50 : Int) ++
        "ms, but nothing arrived")) ∧
    (runChain connOpen [opStep (.error ("Excepted message within " ++
        toString (50 : Int) ++ "ms, but nothing arrived"))]).conn = wsClose connOpen :=
  ⟨(expectMessage_timeout_behaviour dispString msgText (.lit "x") 50 quietEnv connOpen
      (fun x hx => nomatch hx) (fun x hx => nomatch hx) (by decide) rfl).1,
   (expectMessage_timeout_behaviour dispString msgText (.lit "x") 50 quietEnv connOpen
      (fun x hx => nomatch hx) (fun x hx => nomatch hx) (by decide) rfl).2.2.1⟩

/-- C9: the process-wide bulk close returns the number of registered
connections still connecting or open, clears the registry, closes exactly
those connections, and an immediately following second call returns 0. -/
theorem closeAll_closes_open_connections (registry : List Conn) :
    (closeAll registry).1 = (registry.filter (fun ws =>
        ws.readyState == CONNECTING || ws.readyState == OPEN)).length ∧
    (closeAll registry).2.1 = [] ∧
    (closeAll registry).2.2 = (registry.filter (fun ws =>
        ws.readyState == CONNECTING || ws.readyState == OPEN)).map wsClose ∧
    (closeAll (closeAll registry).2.1).1 = 0 := by
  exact ⟨rfl, rfl, rfl, rfl⟩

/-- C10: sendText coerces its payload with JavaScript string conversion,
so the sent frame is always the text frame of the payload's string form,
and the send outcome does not depend on the payload at all (in
particular, it never fails because of the payload's type). -/
theorem sendText_coerces_payload (env : SendEnv) (msg msg2 : JsValue) :
    sendText env msg = (WsData.text (jsToString msg), sendWithError env) ∧
    (sendText env msg).2 = (sendText env msg2).2 := by
  exact ⟨rfl, rfl⟩

end Superwstest
